import Mathlib

/-!
Verification of the Hopsworks client SDK excerpt: `hsfs/expectation_suite.py`,
`hsml/core/model_api.py` and `hopsworks_common/core/opensearch_api.py`,
shallowly embedded in Lean. Python dictionaries exchanged with the backend are
modelled by an inductive `Json` type, Python exceptions by an explicit error
type, and every operation that may talk to the backend returns the list of
requests it issued alongside its result, so that frame properties such as
"performs no network call" are statable.
-/

namespace Hopsworks

/-- JSON-like values: the payloads the wrappers exchange with the backend and
the contents of Python dicts. Numbers are modelled as integers (no claim in
scope involves fractional JSON numbers). -/
inductive Json where
  | null
  | bool (b : Bool)
  | num (n : Int)
  | str (s : String)
  | arr (elems : List Json)
  | obj (fields : List (String × Json))
  deriving Repr

/-- Model of Python `str.lower()` (character-wise; the sources only lower
ASCII identifiers). -/
def pyLower (s : String) : String :=
  ⟨s.data.map Char.toLower⟩

/-- Model of Python `str.upper()` (character-wise; the sources only upper
ASCII policy names). -/
def pyUpper (s : String) : String :=
  ⟨s.data.map Char.toUpper⟩

/-- One step of `humps.decamelize` on a key: an upper-case letter becomes an
underscore followed by its lower-case form. -/
def decamelizeChar (c : Char) : List Char :=
  if c.isUpper then ['_', c.toLower] else [c]

/-- Model of `humps.decamelize` on a single key string: "featureStoreId"
becomes "feature_store_id"; keys already in snake_case are unchanged. -/
def decamelizeStr (s : String) : String :=
  ⟨(s.data.map decamelizeChar).flatten⟩

mutual
/-- Model of `humps.decamelize` on a whole JSON value: dictionary keys are
converted to snake_case recursively, other values are kept. -/
def decamelizeJson : Json → Json
  | .null => .null
  | .bool b => .bool b
  | .num n => .num n
  | .str s => .str s
  | .arr xs => .arr (decamelizeList xs)
  | .obj kvs => .obj (decamelizeObj kvs)

/-- `humps.decamelize` mapped over the elements of a JSON array. -/
def decamelizeList : List Json → List Json
  | [] => []
  | x :: xs => decamelizeJson x :: decamelizeList xs

/-- `humps.decamelize` mapped over the entries of a JSON dictionary. -/
def decamelizeObj : List (String × Json) → List (String × Json)
  | [] => []
  | (k, v) :: kvs => (decamelizeStr k, decamelizeJson v) :: decamelizeObj kvs
end

/-- First-match lookup in a Python keyword-argument dictionary. -/
def pyGet (kvs : List (String × Json)) (key : String) : Option Json :=
  match kvs with
  | [] => none
  | (k, v) :: rest => if k = key then some v else pyGet rest key

/-- Python truthiness of an optional integer (`if self.id:`): `None` and `0`
are falsy. -/
def truthyOptInt : Option Int → Bool
  | none => false
  | some n => decide (n ≠ 0)

/-- The Python exceptions raised by the embedded code. -/
inductive PyErr where
  | typeError (msg : String)
  | valueError (msg : String)
  | featureStoreException (msg : String)
  | assertionError (msg : String)
  | attributeError (msg : String)
  deriving Repr, DecidableEq

/-- Modelled from the spec:
`hsfs.core.constants.initialise_expectation_suite_for_single_expectation_api_message`.
The constants module is not among the sources; the spec describes the error as
the "attach first" error ("must attach before using the single-rule API"). -/
def initialise_expectation_suite_for_single_expectation_api_message : String :=
  "Initialize the expectation suite by attaching it to a feature group to use the single expectation API"

/-- Modelled from the spec: `hsfs.ge_expectation.GeExpectation`, the local
Rule type ("a typed predicate description - kind, target column(s),
parameters, optional id assigned by server. Convertible to/from ... a generic
key-value map"). Its module is not among the sources. -/
structure GeExpectation where
  expectation_type : String
  kwargs : Json
  meta : Json
  id : Option Int
  deriving Repr

/-- `None` maps to JSON null, an integer to a JSON number. -/
def optIntJson : Option Int → Json
  | none => .null
  | some n => .num n

/-- An optional JSON value, with `None` rendered as null. -/
def optJson : Option Json → Json
  | none => .null
  | some v => v

/-- Modelled from the spec: serialization of a Rule "to a generic key-value
map", with wire-format (camelCase) key names, mirroring the suite-level
`to_json_dict`. -/
def GeExpectation.to_json_dict (e : GeExpectation) : Json :=
  .obj [("id", optIntJson e.id),
        ("expectationType", .str e.expectation_type),
        ("kwargs", e.kwargs),
        ("meta", e.meta)]

/-- Modelled from the spec: construction of a Rule from a generic key-value
map (`GeExpectation(**expectation)`): the kind is required, parameters and
metadata default to empty maps, the id is optional. -/
def GeExpectation.from_kwargs (kvs : List (String × Json)) : Except PyErr GeExpectation :=
  match pyGet kvs "expectation_type" with
  | some (.str t) =>
    let id : Option Int :=
      match pyGet kvs "id" with
      | some (.num n) => some n
      | _ => none
    .ok { expectation_type := t,
          kwargs := (pyGet kvs "kwargs").getD (.obj []),
          meta := (pyGet kvs "meta").getD (.obj []),
          id := id }
  | _ => .error (.typeError "missing required argument expectation_type")

/-- `hsfs.core.expectation_engine.ExpectationEngine`: the rule-level
sub-resource manager, identified by the ids it is constructed with. -/
structure ExpectationEngine where
  feature_store_id : Int
  feature_group_id : Int
  expectation_suite_id : Int
  deriving Repr, DecidableEq

/-- `hsfs.core.expectation_suite_engine.ExpectationSuiteEngine`: the
suite-level metadata-update manager. -/
structure ExpectationSuiteEngine where
  feature_store_id : Int
  feature_group_id : Int
  deriving Repr, DecidableEq

/-- A network request issued by an `ExpectationSuite` operation, tagged with
the engine identity that issued it. -/
inductive Request where
  | engineGet (feature_store_id feature_group_id suite_id : Int) (expectation_id : Int)
  | engineCreate (feature_store_id feature_group_id suite_id : Int)
  | engineUpdate (feature_store_id feature_group_id suite_id : Int)
  | engineDelete (feature_store_id feature_group_id suite_id : Int) (expectation_id : Option Int)
  | engineGetAll (feature_store_id feature_group_id suite_id : Int)
  | updateMetadata (feature_store_id feature_group_id : Int)
  deriving Repr, DecidableEq

/-- The state of `hsfs.expectation_suite.ExpectationSuite`: its `self._x`
attributes after construction. -/
structure ExpectationSuite where
  _id : Option Int
  _expectation_suite_name : String
  _ge_cloud_id : Option Json
  _data_asset_type : Option Json
  _run_validation : Bool
  _validation_ingestion_policy : String
  _expectations : List GeExpectation
  _meta : Json
  _href : Option String
  _feature_store_id : Option Int
  _feature_group_id : Option Int
  _expectation_engine : Option ExpectationEngine
  _expectation_suite_engine : Option ExpectationSuiteEngine
  deriving Repr

/-- The runtime type of a value passed as one expectation: the union
`great_expectations.core.ExpectationConfiguration | Dict[str, Any] |
GeExpectation` plus unsupported runtime types, which carry the name printed
by `type(x)`. -/
inductive ExpInput where
  | hw (e : GeExpectation)
  | dict (kvs : List (String × Json))
  | other (typeName : String)
  deriving Repr

/-- The runtime type of a value assigned to the `expectations` property:
`None`, a list, or an unsupported type carrying the name printed by
`type(x)`. -/
inductive ExpectationsInput where
  | pyNone
  | list (xs : List ExpInput)
  | other (typeName : String)
  deriving Repr

/-- The runtime type of a value assigned to the `meta` property: a dict, a
string, or an unsupported type. -/
inductive MetaInput where
  | dict (kvs : List (String × Json))
  | str (s : String)
  | other (typeName : String)
  deriving Repr

/-- `ExpectationSuite._convert_expectation`: normalize one expectation to the
Hopsworks `GeExpectation` type, raising `TypeError` on unsupported input.
(The `great_expectations`-native case converts through its `to_json_dict`,
which the `dict` case covers.) -/
def ExpectationSuite._convert_expectation : ExpInput → Except PyErr GeExpectation
  | .hw e => .ok e
  | .dict kvs => GeExpectation.from_kwargs kvs
  | .other t => .error (.typeError ("Expectation of type " ++ t ++ " is not supported."))

/-- The body of the `expectations` property setter: `None` becomes the empty
list, a list has each element converted, anything else raises `TypeError`. -/
def convertExpectations : ExpectationsInput → Except PyErr (List GeExpectation)
  | .pyNone => .ok []
  | .list xs => xs.mapM ExpectationSuite._convert_expectation
  | .other t =>
    .error (.typeError ("Type " ++ t ++ " not supported. Expectations must be None or a list."))

/-- A nonempty string made of digits: what the regex group `(\d+)` matches. -/
def isDigitSeg (s : String) : Bool :=
  decide (s.length > 0) && s.data.all Char.isDigit

/-- Scan the href path segments (everything after the first `/`) for the
first occurrence of the pattern
`featurestores/(\d+)/featuregroups/(\d+)/expectationsuit...`, as the regex in
`_init_feature_store_and_feature_group_ids_from_href` does. -/
def hrefScanTail : List String → Option (Nat × Nat)
  | "featurestores" :: a :: "featuregroups" :: b :: c :: rest =>
    if isDigitSeg a && isDigitSeg b && String.isPrefixOf "expectationsuit" c then
      some ((a.toNat?).getD 0, (b.toNat?).getD 0)
    else hrefScanTail (a :: "featuregroups" :: b :: c :: rest)
  | _ :: rest => hrefScanTail rest
  | [] => none

/-- `ExpectationSuite._init_feature_store_and_feature_group_ids_from_href`:
extract the two parent ids from the href, or fail (`re.search` returned
`None`) when the pattern does not occur. -/
def hrefExtract (href : String) : Option (Int × Int) :=
  match hrefScanTail (href.splitOn "/").tail with
  | some (a, b) => some ((a : Int), (b : Int))
  | none => none

/-- The body of the `meta` property setter up to the stored value: a dict is
stored as-is, a string is parsed with `json.loads` (a failing parse raises
`json.JSONDecodeError`, a subclass of `ValueError`), anything else raises
`ValueError`. `loads` abstracts the external `json.loads`. -/
def convertMeta (loads : String → Except String Json) : MetaInput → Except PyErr Json
  | .dict kvs => .ok (.obj kvs)
  | .str s =>
    match loads s with
    | .ok v => .ok v
    | .error e => .error (.valueError e)
  | .other _ => .error (.valueError "Meta field must be stringified json or dict.")

/-- `ExpectationSuite.__init__`. Keyword arguments are passed positionally;
`ge_cloud_id` and `data_asset_type` arrive through `**kwargs`. Returns the
constructed state or the exception `__init__` raises. No network request is
made: the `meta` setter only pushes an update when the engine attribute
already exists, which during `__init__` it does not. -/
def ExpectationSuite.init (loads : String → Except String Json)
    (expectation_suite_name : String) (expectations : ExpectationsInput) (meta : MetaInput)
    (id : Option Int) (run_validation : Bool) (validation_ingestion_policy : String)
    (feature_store_id feature_group_id : Option Int) (href : Option String)
    (ge_cloud_id data_asset_type : Option Json) :
    Except PyErr ExpectationSuite := do
  let fsfg : Option Int × Option Int ←
    match feature_store_id, feature_group_id with
    | some fs, some fg => Except.ok (some fs, some fg)
    | fs, fg =>
      match href with
      | some h =>
        match hrefExtract h with
        | some (a, b) => Except.ok (some a, some b)
        | none => Except.error (.attributeError "NoneType object has no attribute groups")
      | none =>
        let _ := fs
        let _ := fg
        Except.ok (none, none)
  let exps ← convertExpectations expectations
  let metaVal ← convertMeta loads meta
  let s : ExpectationSuite := {
    _id := id
    _expectation_suite_name := expectation_suite_name
    _ge_cloud_id := ge_cloud_id
    _data_asset_type := data_asset_type
    _run_validation := run_validation
    _validation_ingestion_policy := pyUpper validation_ingestion_policy
    _expectations := exps
    _meta := metaVal
    _href := href
    _feature_store_id := fsfg.1
    _feature_group_id := fsfg.2
    _expectation_engine := none
    _expectation_suite_engine := none }
  if truthyOptInt s._id then
    match s._feature_store_id, s._feature_group_id, s._id with
    | some fs, some fg, some i =>
      Except.ok { s with
        _expectation_engine := some ⟨fs, fg, i⟩
        _expectation_suite_engine := some ⟨fs, fg⟩ }
    | none, _, _ =>
      Except.error
        (.assertionError "feature_store_id should not be None if expectation suite id is provided")
    | _, none, _ =>
      Except.error
        (.assertionError "feature_group_id should not be None if expectation suite id is provided")
    | _, _, none => Except.error (.assertionError "unreachable: id is truthy")
  else
    Except.ok s

/-- How a JSON value passed for one expectation is seen at runtime. -/
def jsonToExpInput : Json → ExpInput
  | .obj kvs => .dict kvs
  | .str _ => .other "str"
  | .num _ => .other "int"
  | .bool _ => .other "bool"
  | .null => .other "NoneType"
  | .arr _ => .other "list"

/-- How a JSON value passed for the `expectations` argument is seen at
runtime. -/
def jsonToExpectationsInput : Json → ExpectationsInput
  | .null => .pyNone
  | .arr xs => .list (xs.map jsonToExpInput)
  | .obj _ => .other "dict"
  | .str _ => .other "str"
  | .num _ => .other "int"
  | .bool _ => .other "bool"

/-- How a JSON value passed for the `meta` argument is seen at runtime. -/
def jsonToMetaInput : Json → MetaInput
  | .obj kvs => .dict kvs
  | .str s => .str s
  | .null => .other "NoneType"
  | .num _ => .other "int"
  | .bool _ => .other "bool"
  | .arr _ => .other "list"

/-- An optional integer argument taken from a keyword dictionary. -/
def optIntArg (kvs : List (String × Json)) (key : String) : Except PyErr (Option Int) :=
  match pyGet kvs key with
  | none => .ok none
  | some .null => .ok none
  | some (.num n) => .ok (some n)
  | some _ => .error (.typeError (key ++ " must be an int or None"))

/-- `ExpectationSuite(**d)`: bind the entries of a dictionary to the
parameters of `__init__`. A missing required parameter is Python's
`TypeError: missing required positional argument`; unknown keys are swallowed
by `**kwargs`, out of which `ge_cloud_id` and `data_asset_type` are read
(`kwargs.get`, so an absent key and a `None` value coincide). -/
def ExpectationSuite.mk_from_kwargs (loads : String → Except String Json)
    (kvs : List (String × Json)) : Except PyErr ExpectationSuite := do
  let name ← match pyGet kvs "expectation_suite_name" with
    | some (.str n) => Except.ok n
    | some _ => Except.error (.typeError "expectation_suite_name must be a string")
    | none => Except.error (.typeError "missing required argument expectation_suite_name")
  let expectations ← match pyGet kvs "expectations" with
    | some j => Except.ok (jsonToExpectationsInput j)
    | none => Except.error (.typeError "missing required argument expectations")
  let meta ← match pyGet kvs "meta" with
    | some j => Except.ok (jsonToMetaInput j)
    | none => Except.error (.typeError "missing required argument meta")
  let id ← optIntArg kvs "id"
  let run_validation ← match pyGet kvs "run_validation" with
    | none => Except.ok true
    | some (.bool b) => Except.ok b
    | some _ => Except.error (.typeError "run_validation must be a bool")
  let policy ← match pyGet kvs "validation_ingestion_policy" with
    | none => Except.ok "always"
    | some (.str p) => Except.ok p
    | some _ => Except.error (.typeError "validation_ingestion_policy must be a string")
  let fs ← optIntArg kvs "feature_store_id"
  let fg ← optIntArg kvs "feature_group_id"
  let href ← match pyGet kvs "href" with
    | none => Except.ok none
    | some .null => Except.ok none
    | some (.str h) => Except.ok (some h)
    | some _ => Except.error (.typeError "href must be a string or None")
  let ge_cloud_id : Option Json :=
    match pyGet kvs "ge_cloud_id" with
    | some .null => none
    | v => v
  let data_asset_type : Option Json :=
    match pyGet kvs "data_asset_type" with
    | some .null => none
    | v => v
  ExpectationSuite.init loads name expectations meta id run_validation policy
    fs fg href ge_cloud_id data_asset_type

/-- Reconstructing a suite by passing the entries of a serialized dictionary
as constructor arguments (`ExpectationSuite(**d)`). -/
def suiteFromJsonDict (loads : String → Except String Json) (j : Json) :
    Except PyErr ExpectationSuite :=
  match j with
  | .obj kvs => ExpectationSuite.mk_from_kwargs loads kvs
  | _ => .error (.typeError "argument of type star-star must be a mapping")

/-- `ExpectationSuite.to_json_dict`: the JSON-compatible dictionary with
camelCase keys, `meta` as a nested object, and the policy upper-cased; with
`decamelize = true` the whole dictionary is passed through
`humps.decamelize`. -/
def ExpectationSuite.to_json_dict (s : ExpectationSuite) (decamelize : Bool) : Json :=
  let d : Json := .obj [
    ("id", optIntJson s._id),
    ("featureStoreId", optIntJson s._feature_store_id),
    ("featureGroupId", optIntJson s._feature_group_id),
    ("expectationSuiteName", .str s._expectation_suite_name),
    ("expectations", .arr (s._expectations.map GeExpectation.to_json_dict)),
    ("meta", s._meta),
    ("geCloudId", optJson s._ge_cloud_id),
    ("dataAssetType", optJson s._data_asset_type),
    ("runValidation", .bool s._run_validation),
    ("validationIngestionPolicy", .str (pyUpper s._validation_ingestion_policy))]
  if decamelize then decamelizeJson d else d

/-- The metadata push shared by the attached-state property setters:
`if self.id: self._expectation_suite_engine.update_metadata_from_fields(...)`.
When the id is truthy but the suite-level engine is `None`, Python raises
`AttributeError`. -/
def pushMetadataUpdate (s : ExpectationSuite) : Option PyErr × List Request :=
  if truthyOptInt s._id then
    match s._expectation_suite_engine with
    | some eng =>
      (none, [Request.updateMetadata eng.feature_store_id eng.feature_group_id])
    | none =>
      (some (.attributeError "NoneType object has no attribute update_metadata_from_fields"), [])
  else (none, [])

/-- The `id` property setter: assigns the private field with no check. -/
def ExpectationSuite.set_id (s : ExpectationSuite) (id : Int) : ExpectationSuite :=
  { s with _id := some id }

/-- The `expectation_suite_name` property setter. -/
def ExpectationSuite.set_expectation_suite_name (s : ExpectationSuite) (n : String) :
    Option PyErr × ExpectationSuite × List Request :=
  let s2 := { s with _expectation_suite_name := n }
  let (e, reqs) := pushMetadataUpdate s2
  (e, s2, reqs)

/-- The `run_validation` property setter. -/
def ExpectationSuite.set_run_validation (s : ExpectationSuite) (b : Bool) :
    Option PyErr × ExpectationSuite × List Request :=
  let s2 := { s with _run_validation := b }
  let (e, reqs) := pushMetadataUpdate s2
  (e, s2, reqs)

/-- The `validation_ingestion_policy` property setter: stores the upper-cased
value, then pushes a metadata update when the suite id is truthy. -/
def ExpectationSuite.set_validation_ingestion_policy (s : ExpectationSuite) (v : String) :
    Option PyErr × ExpectationSuite × List Request :=
  let s2 := { s with _validation_ingestion_policy := pyUpper v }
  let (e, reqs) := pushMetadataUpdate s2
  (e, s2, reqs)

/-- The `data_asset_type` property setter: plain assignment, no push. -/
def ExpectationSuite.set_data_asset_type (s : ExpectationSuite) (v : Option Json) :
    ExpectationSuite :=
  { s with _data_asset_type := v }

/-- The `ge_coud_id` property setter (the misspelling is the source's): plain
assignment, no push. -/
def ExpectationSuite.set_ge_coud_id (s : ExpectationSuite) (v : Option Json) :
    ExpectationSuite :=
  { s with _ge_cloud_id := v }

/-- The `expectations` property setter: converts and stores the list, with no
network push in its body. On `TypeError` the list is unchanged. -/
def ExpectationSuite.set_expectations (s : ExpectationSuite) (v : ExpectationsInput) :
    Option PyErr × ExpectationSuite :=
  match convertExpectations v with
  | .ok es => (none, { s with _expectations := es })
  | .error e => (some e, s)

/-- The `meta` property setter on a constructed suite: store the converted
value, then push a metadata update when the id is truthy (the
`_expectation_suite_engine` attribute exists after `__init__`). On error the
stored meta is unchanged. -/
def ExpectationSuite.set_meta (loads : String → Except String Json)
    (s : ExpectationSuite) (m : MetaInput) :
    Option PyErr × ExpectationSuite × List Request :=
  match convertMeta loads m with
  | .error e => (some e, s, [])
  | .ok v =>
    let s2 := { s with _meta := v }
    let (e, reqs) := pushMetadataUpdate s2
    (e, s2, reqs)

/-- The backend behaviour behind `ExpectationEngine`, as an oracle: what each
remote call returns. The engine itself only forwards to REST endpoints. -/
structure ExpectationBackend where
  getExpectation : Int → Except PyErr GeExpectation
  createExpectation : GeExpectation → Except PyErr GeExpectation
  updateExpectation : GeExpectation → Except PyErr GeExpectation
  deleteExpectation : Option Int → Except PyErr Unit
  getExpectationsBySuiteId : Except PyErr (List GeExpectation)

/-- The value returned by a single-expectation operation: the Hopsworks type,
or its `great_expectations`-native conversion when `ge_type` is true. -/
inductive ExpResult where
  | hw (e : GeExpectation)
  | ge (e : GeExpectation)
  deriving Repr

/-- The "attach first" failure shared by the four single-expectation
operations. -/
def unattachedFailure (s : ExpectationSuite) :
    Except PyErr ExpResult × ExpectationSuite × List Request :=
  (.error (.featureStoreException
      initialise_expectation_suite_for_single_expectation_api_message),
   s, [])

/-- `ExpectationSuite.get_expectation`: requires `self.id` truthy and the
rule-level engine present, then fetches the expectation from the backend. -/
def ExpectationSuite.get_expectation (b : ExpectationBackend) (s : ExpectationSuite)
    (expectation_id : Int) (ge_type : Bool) :
    Except PyErr ExpResult × ExpectationSuite × List Request :=
  match s._expectation_engine with
  | some eng =>
    if truthyOptInt s._id then
      let req := Request.engineGet eng.feature_store_id eng.feature_group_id
        eng.expectation_suite_id expectation_id
      match b.getExpectation expectation_id with
      | .ok e => (.ok (if ge_type then .ge e else .hw e), s, [req])
      | .error err => (.error err, s, [req])
    else unattachedFailure s
  | none => unattachedFailure s

/-- `ExpectationSuite.add_expectation`: requires `self.id` truthy, converts
the input, creates it remotely, then re-fetches the whole expectation list to
resynchronize the local state. -/
def ExpectationSuite.add_expectation (b : ExpectationBackend) (s : ExpectationSuite)
    (expectation : ExpInput) (ge_type : Bool) :
    Except PyErr ExpResult × ExpectationSuite × List Request :=
  if truthyOptInt s._id then
    match ExpectationSuite._convert_expectation expectation with
    | .error err => (.error err, s, [])
    | .ok conv =>
      match s._expectation_engine with
      | none => (.error (.attributeError "NoneType object has no attribute create"), s, [])
      | some eng =>
        let reqCreate := Request.engineCreate eng.feature_store_id eng.feature_group_id
          eng.expectation_suite_id
        let reqAll := Request.engineGetAll eng.feature_store_id eng.feature_group_id
          eng.expectation_suite_id
        match b.createExpectation conv with
        | .error err => (.error err, s, [reqCreate])
        | .ok created =>
          match b.getExpectationsBySuiteId with
          | .error err => (.error err, s, [reqCreate, reqAll])
          | .ok es =>
            (.ok (if ge_type then .ge created else .hw created),
             { s with _expectations := es }, [reqCreate, reqAll])
  else unattachedFailure s

/-- `ExpectationSuite.replace_expectation`: requires `self.id` truthy and the
input to carry an id (`check_for_id`, modelled from the spec: "requires the
rule carry an id"), updates remotely, then re-fetches the list. -/
def ExpectationSuite.replace_expectation (b : ExpectationBackend) (s : ExpectationSuite)
    (expectation : ExpInput) (ge_type : Bool) :
    Except PyErr ExpResult × ExpectationSuite × List Request :=
  if truthyOptInt s._id then
    match ExpectationSuite._convert_expectation expectation with
    | .error err => (.error err, s, [])
    | .ok conv =>
      match s._expectation_engine with
      | none => (.error (.attributeError "NoneType object has no attribute check_for_id"), s, [])
      | some eng =>
        if conv.id.isSome then
          let reqUpd := Request.engineUpdate eng.feature_store_id eng.feature_group_id
            eng.expectation_suite_id
          let reqAll := Request.engineGetAll eng.feature_store_id eng.feature_group_id
            eng.expectation_suite_id
          match b.updateExpectation conv with
          | .error err => (.error err, s, [reqUpd])
          | .ok updated =>
            match b.getExpectationsBySuiteId with
            | .error err => (.error err, s, [reqUpd, reqAll])
            | .ok es =>
              (.ok (if ge_type then .ge updated else .hw updated),
               { s with _expectations := es }, [reqUpd, reqAll])
        else
          (.error (.featureStoreException "The expectation should have an id to be updated"), s, [])
  else unattachedFailure s

/-- `ExpectationSuite.remove_expectation`: requires `self.id` truthy, deletes
remotely, then re-fetches the list. Returns `None` on success (modelled as
no `ExpResult`). -/
def ExpectationSuite.remove_expectation (b : ExpectationBackend) (s : ExpectationSuite)
    (expectation_id : Option Int) :
    Except PyErr Unit × ExpectationSuite × List Request :=
  if truthyOptInt s._id then
    match s._expectation_engine with
    | none => (.error (.attributeError "NoneType object has no attribute delete"), s, [])
    | some eng =>
      let reqDel := Request.engineDelete eng.feature_store_id eng.feature_group_id
        eng.expectation_suite_id expectation_id
      let reqAll := Request.engineGetAll eng.feature_store_id eng.feature_group_id
        eng.expectation_suite_id
      match b.deleteExpectation expectation_id with
      | .error err => (.error err, s, [reqDel])
      | .ok _ =>
        match b.getExpectationsBySuiteId with
        | .error err => (.error err, s, [reqDel, reqAll])
        | .ok es => (.ok (), { s with _expectations := es }, [reqDel, reqAll])
  else
    (.error (.featureStoreException
        initialise_expectation_suite_for_single_expectation_api_message),
     s, [])

/-- A query-parameter value as the transport client receives it: a string, a
list of strings, or an integer. -/
inductive QVal where
  | s (v : String)
  | l (vs : List String)
  | n (v : Int)
  deriving Repr, DecidableEq

/-- A request handed to the shared transport client
(`_client._send_request`). -/
structure MRequest where
  method : String
  path_params : List String
  query_params : List (String × QVal)
  deriving Repr, DecidableEq

/-- First-match lookup among query parameters. -/
def qGet (q : List (String × QVal)) (key : String) : Option QVal :=
  match q with
  | [] => none
  | (k, v) :: rest => if k = key then some v else qGet rest key

/-- The backend error the transport client raises on a non-2xx response
(`RestAPIError`), carrying the HTTP status. -/
structure RestError where
  status : Int
  msg : String
  deriving Repr, DecidableEq

/-- Whether a backend error is a not-found (404-class) response. -/
def RestError.isNotFound (e : RestError) : Bool :=
  e.status == 404

/-- An error escaping a `ModelApi` operation: a backend error or a Python
exception raised while decoding. -/
inductive MErr where
  | rest (e : RestError)
  | py (e : PyErr)
  deriving Repr, DecidableEq

/-- Modelled from the spec: the `hsml.decorators.catch_not_found` decorator
(its module is not among the sources). "Backend 404-class responses are
caught at the API-wrapper boundary for read operations and converted to
`None` / empty-map sentinels"; any other error propagates unchanged. -/
def catch_not_found (fallback : α) (body : Except MErr α) : Except MErr α :=
  match body with
  | .ok v => .ok v
  | .error (.rest e) => if e.isNotFound then .ok fallback else .error (.rest e)
  | .error (.py e) => .error (.py e)

/-- Modelled from the spec: `hsml.model.Model` reduced to what the claims
need - the decoded response payload plus the shared-registry project name the
wrapper sets afterwards ("deserialize JSON into a local metadata object"). -/
structure Model where
  response : Json
  shared_registry_project_name : Option String
  deriving Repr

/-- `ModelApi.get`: GET by composite key `{name}_{version}` with
`expand=trainingdatasets`; the `catch_not_found` decorator turns a 404-class
backend error into `None`. `resp` is the backend's answer to the one request
issued. -/
def ModelApi.get (resp : Except RestError Json) (project_id : String)
    (name : String) (version : Int) (model_registry_id : String)
    (shared_registry_project_name : Option String) :
    Except MErr (Option Model) × List MRequest :=
  let req : MRequest := {
    method := "GET",
    path_params := ["project", project_id, "modelregistries", model_registry_id,
      "models", name ++ "_" ++ toString version],
    query_params := [("expand", .s "trainingdatasets")] }
  let body : Except MErr (Option Model) :=
    match resp with
    | .ok j => .ok (some ⟨j, shared_registry_project_name⟩)
    | .error e => .error (.rest e)
  (catch_not_found none body, [req])

/-- The request `ModelApi.get_models` issues: filter by name; when both
`metric` and `direction` are given, `direction` is mapped case-insensitively
(`max` to `desc`, `min` to `asc`) and `sort_by` and `limit=1` are added. -/
def ModelApi.get_models_request (project_id : String) (name : String)
    (model_registry_id : String) (metric direction : Option String) : MRequest :=
  let base : List (String × QVal) :=
    [("expand", .s "trainingdatasets"), ("filter_by", .l ["name_eq:" ++ name])]
  let query : List (String × QVal) :=
    match metric, direction with
    | some m, some d =>
      let d2 := if pyLower d = "max" then "desc" else if pyLower d = "min" then "asc" else d
      base ++ [("sort_by", .s (m ++ ":" ++ d2)), ("limit", .s "1")]
    | _, _ => base
  { method := "GET",
    path_params := ["project", project_id, "modelregistries", model_registry_id, "models"],
    query_params := query }

/-- Modelled from the spec: the list variant of `Model.from_response_json`
("list responses carry a `count` field; `count == 0` maps to `None`/absent
rather than an empty list"). -/
def Model.from_response_json_list (j : Json) : Option (List Json) :=
  match j with
  | .obj kvs =>
    match pyGet kvs "count" with
    | some (.num n) =>
      if n = 0 then none
      else
        match pyGet kvs "items" with
        | some (.arr items) => some items
        | _ => none
    | _ => none
  | _ => none

/-- `ModelApi.get_models`: issues the request built by
`get_models_request` and decodes the list response. -/
def ModelApi.get_models (resp : Except RestError Json) (project_id : String)
    (name : String) (model_registry_id : String)
    (shared_registry_project_name : Option String) (metric direction : Option String) :
    Except MErr (List Model) × List MRequest :=
  let req := ModelApi.get_models_request project_id name model_registry_id metric direction
  let body : Except MErr (List Model) :=
    match resp with
    | .error e => .error (.rest e)
    | .ok j =>
      match Model.from_response_json_list j with
      | none => .ok []
      | some items => .ok (items.map fun i =>
          { response := i, shared_registry_project_name := shared_registry_project_name })
  (body, [req])

/-- A tag as decoded from the backend: a name and a stringified JSON value. -/
structure Tag where
  name : String
  value : String
  deriving Repr, DecidableEq

/-- Modelled from the spec: `hopsworks_common.tag.Tag.from_response_json`
(its module is not among the sources). Decodes the list envelope; per the
spec's envelope convention, "`count == 0` maps to `None`/absent rather than
an empty list". -/
def Tag.from_response_json (j : Json) : Option (List Tag) :=
  match j with
  | .obj kvs =>
    match pyGet kvs "count" with
    | some (.num n) =>
      if n = 0 then none
      else
        match pyGet kvs "items" with
        | some (.arr items) =>
          items.mapM fun i =>
            match i with
            | .obj tkvs =>
              match pyGet tkvs "name", pyGet tkvs "value" with
              | some (.str nm), some (.str v) => some { name := nm, value := v }
              | _, _ => none
            | _ => none
        | _ => none
    | _ => none
  | _ => none

/-- One entry of the tag map: the tag name with its value run through
`json.loads`. -/
def decodeTag (loads : String → Except String Json) (t : Tag) :
    Except String (String × Json) :=
  (loads t.value).map fun v => (t.name, v)

/-- `ModelApi.get_tags`: fetch all tags and JSON-decode each value; the
`catch_not_found` decorator turns a 404-class backend error into the empty
map. Iterating a `None` decode result raises `TypeError`, which is not
caught. -/
def ModelApi.get_tags (loads : String → Except String Json)
    (resp : Except RestError Json) (project_id model_registry_id model_id : String) :
    Except MErr (List (String × Json)) × List MRequest :=
  let req : MRequest := {
    method := "GET",
    path_params := ["project", project_id, "modelregistries", model_registry_id,
      "models", model_id, "tags"],
    query_params := [] }
  let body : Except MErr (List (String × Json)) :=
    match resp with
    | .error e => .error (.rest e)
    | .ok j =>
      match Tag.from_response_json j with
      | none => .error (.py (.typeError "NoneType object is not iterable"))
      | some tags =>
        match tags.mapM (decodeTag loads) with
        | .ok vs => .ok vs
        | .error e => .error (.py (.valueError e))
  (catch_not_found [] body, [req])

/-- The direction of a provenance link. -/
inductive LinkDirection where
  | upstream
  | downstream
  deriving Repr, DecidableEq, BEq

/-- The artifact type a provenance link points at. -/
inductive LinkType where
  | featureView
  | trainingDataset
  | featureGroup
  | modelArtifact
  deriving Repr, DecidableEq, BEq

/-- The accessibility of the artifact behind a link. -/
inductive LinkStatus where
  | accessible
  | deleted
  | inaccessible
  deriving Repr, DecidableEq, BEq

/-- A raw provenance link of the decoded backend response. -/
structure RawLink where
  direction : LinkDirection
  typ : LinkType
  status : LinkStatus
  artifact_id : Int
  deriving Repr, DecidableEq

/-- Modelled from the spec: `hsml.core.explicit_provenance.Links` (its module
is not among the sources) - the link collection bucketed by accessibility
("these feature views can be accessible, deleted or inaccessible"). -/
structure Links where
  accessible : List RawLink
  deleted : List RawLink
  inaccessible : List RawLink
  deriving Repr, DecidableEq

/-- `Links.is_empty`: no link in any bucket. -/
def Links.isEmptyLinks (l : Links) : Bool :=
  l.accessible.isEmpty && l.deleted.isEmpty && l.inaccessible.isEmpty

/-- Modelled from the spec: `Links.from_response_json` - "filter by link
direction/type", bucketing the remaining links by accessibility. -/
def Links.from_response_json (raw : List RawLink) (dir : LinkDirection)
    (typ : LinkType) : Links :=
  let f := raw.filter fun l => l.direction == dir && l.typ == typ
  { accessible := f.filter fun l => l.status == .accessible,
    deleted := f.filter fun l => l.status == .deleted,
    inaccessible := f.filter fun l => l.status == .inaccessible }

/-- The provenance request shared by the two provenance lookups. -/
def provenanceRequest (project_id model_registry_id model_id : String)
    (upstreamLvls : Int) : MRequest :=
  { method := "GET",
    path_params := ["project", project_id, "modelregistries", model_registry_id,
      "models", model_id, "provenance", "links"],
    query_params := [("expand", .s "provenance_artifacts"),
      ("upstreamLvls", .n upstreamLvls), ("downstreamLvls", .n 0)] }

/-- `ModelApi.get_feature_view_provenance`: upstream depth 2, downstream 0,
filter for upstream feature-view links, return `None` rather than an empty
collection. `resp` is the decoded backend answer to the one request issued. -/
def ModelApi.get_feature_view_provenance (resp : Except RestError (List RawLink))
    (project_id model_registry_id model_id : String) :
    Except MErr (Option Links) × List MRequest :=
  let req := provenanceRequest project_id model_registry_id model_id 2
  match resp with
  | .error e => (.error (.rest e), [req])
  | .ok raw =>
    let links := Links.from_response_json raw .upstream .featureView
    (.ok (if !links.isEmptyLinks then some links else none), [req])

/-- `ModelApi.get_training_dataset_provenance`: upstream depth 1, downstream
0, filter for upstream training-dataset links, return `None` rather than an
empty collection. -/
def ModelApi.get_training_dataset_provenance (resp : Except RestError (List RawLink))
    (project_id model_registry_id model_id : String) :
    Except MErr (Option Links) × List MRequest :=
  let req := provenanceRequest project_id model_registry_id model_id 1
  match resp with
  | .error e => (.error (.rest e), [req])
  | .ok raw =>
    let links := Links.from_response_json raw .upstream .trainingDataset
    (.ok (if !links.isEmptyLinks then some links else none), [req])

/-- The session identifiers the transport client exposes
(`client.get_instance()`). -/
structure ClientSession where
  _project_id : Int
  _project_name : String
  deriving Repr, DecidableEq

/-- `OpenSearchApi.get_project_index`: prefix the index name with the current
project name and lower-case the result. Pure function of session state; the
empty request list records that no network call is made. -/
def OpenSearchApi.get_project_index (c : ClientSession) (index : String) :
    String × List MRequest :=
  (pyLower (c._project_name ++ "_" ++ index), [])

/-! ## Concrete test fixtures -/

/-- A `json.loads` stand-in that never parses (no claim below exercises the
string branch with it). -/
def loads0 : String → Except String Json := fun s => .error ("could not parse: " ++ s)

/-- A concrete backend oracle. -/
def backend0 : ExpectationBackend := {
  getExpectation := fun _ => .error (.valueError "backend unreachable"),
  createExpectation := fun e => .ok e,
  updateExpectation := fun e => .ok e,
  deleteExpectation := fun _ => .ok (),
  getExpectationsBySuiteId := .ok [] }

/-- A concrete expectation. -/
def exp0 : GeExpectation :=
  { expectation_type := "expect_column_values_to_be_unique",
    kwargs := .obj [("column", .str "account_id")],
    meta := .obj [],
    id := none }

/-- A concrete unattached suite (no id, no parent ids, no engines), exactly
what `__init__` produces for purely local use. -/
def suite0 : ExpectationSuite := {
  _id := none,
  _expectation_suite_name := "transactions_suite",
  _ge_cloud_id := none,
  _data_asset_type := none,
  _run_validation := true,
  _validation_ingestion_policy := "ALWAYS",
  _expectations := [exp0],
  _meta := .obj [("notes", .str "checked")],
  _href := none,
  _feature_store_id := none,
  _feature_group_id := none,
  _expectation_engine := none,
  _expectation_suite_engine := none }

/-- A concrete attached suite: id and parent ids set and both engines wired,
as `__init__` produces from a server response. -/
def attachedSuite0 : ExpectationSuite := { suite0 with
  _id := some 21
  _feature_store_id := some 67
  _feature_group_id := some 13
  _expectation_engine := some ⟨67, 13, 21⟩
  _expectation_suite_engine := some ⟨67, 13⟩ }

/-! ## Claim theorems -/

/-- C8: for every session with project name `p` and index string `s`, the
index-name resolution returns `(p ++ "_" ++ s)` lower-cased and makes no
network request; in particular project `MyProj` and index `clicks` give
`myproj_clicks`. -/
theorem C8_project_index (c : ClientSession) (index : String) :
    OpenSearchApi.get_project_index c index =
      (pyLower (c._project_name ++ "_" ++ index), []) ∧
    OpenSearchApi.get_project_index ⟨119, "MyProj"⟩ "clicks" = ("myproj_clicks", []) :=
  ⟨rfl, by decide⟩

/-- C1: on a suite whose id is unset, each of the four single-expectation
operations raises the "attach first" `FeatureStoreException`, issues no
request, and leaves the suite state unchanged. -/
theorem C1_unattached_single_rule_ops (b : ExpectationBackend) (s : ExpectationSuite)
    (h : s._id = none) (expectation_id : Int) (expectation : ExpInput)
    (removal_id : Option Int) (gt1 gt2 gt3 : Bool) :
    ExpectationSuite.get_expectation b s expectation_id gt1 =
      (.error (.featureStoreException
        initialise_expectation_suite_for_single_expectation_api_message), s, []) ∧
    ExpectationSuite.add_expectation b s expectation gt2 =
      (.error (.featureStoreException
        initialise_expectation_suite_for_single_expectation_api_message), s, []) ∧
    ExpectationSuite.replace_expectation b s expectation gt3 =
      (.error (.featureStoreException
        initialise_expectation_suite_for_single_expectation_api_message), s, []) ∧
    ExpectationSuite.remove_expectation b s removal_id =
      (.error (.featureStoreException
        initialise_expectation_suite_for_single_expectation_api_message), s, []) := by
  have ht : truthyOptInt s._id = false := by rw [h]; rfl
  refine ⟨?_, ?_, ?_, ?_⟩
  · cases he : s._expectation_engine <;>
      simp [ExpectationSuite.get_expectation, he, ht, unattachedFailure]
  · simp [ExpectationSuite.add_expectation, ht, unattachedFailure]
  · simp [ExpectationSuite.replace_expectation, ht, unattachedFailure]
  · simp [ExpectationSuite.remove_expectation, ht]

/-- C1 witness: the theorem applied to the concrete unattached suite. -/
theorem C1_unattached_single_rule_ops_witness :
    ExpectationSuite.get_expectation backend0 suite0 7 true =
      (.error (.featureStoreException
        initialise_expectation_suite_for_single_expectation_api_message), suite0, []) ∧
    ExpectationSuite.add_expectation backend0 suite0 (.hw exp0) true =
      (.error (.featureStoreException
        initialise_expectation_suite_for_single_expectation_api_message), suite0, []) ∧
    ExpectationSuite.replace_expectation backend0 suite0 (.hw exp0) false =
      (.error (.featureStoreException
        initialise_expectation_suite_for_single_expectation_api_message), suite0, []) ∧
    ExpectationSuite.remove_expectation backend0 suite0 (some 7) =
      (.error (.featureStoreException
        initialise_expectation_suite_for_single_expectation_api_message), suite0, []) :=
  C1_unattached_single_rule_ops backend0 suite0 rfl 7 (.hw exp0) (some 7) true true false

/-- C6: assigning `"strict"` to `validation_ingestion_policy` stores
`"STRICT"`; on an attached suite (truthy id, suite-level engine present) it
issues exactly one metadata-update request, on an unattached suite none. -/
theorem C6_policy_setter_requests (s : ExpectationSuite) (eng : ExpectationSuiteEngine) :
    (truthyOptInt s._id = true → s._expectation_suite_engine = some eng →
      ExpectationSuite.set_validation_ingestion_policy s "strict" =
        (none, { s with _validation_ingestion_policy := "STRICT" },
         [Request.updateMetadata eng.feature_store_id eng.feature_group_id])) ∧
    (s._id = none →
      ExpectationSuite.set_validation_ingestion_policy s "strict" =
        (none, { s with _validation_ingestion_policy := "STRICT" }, [])) := by
  have hup : pyUpper "strict" = "STRICT" := by decide
  constructor
  · intro hid heng
    simp [ExpectationSuite.set_validation_ingestion_policy, pushMetadataUpdate, hid, heng, hup]
  · intro hid
    have ht : truthyOptInt s._id = false := by rw [hid]; rfl
    simp [ExpectationSuite.set_validation_ingestion_policy, pushMetadataUpdate, ht, hup]

/-- C6 witness: the attached and the unattached branch at concrete suites. -/
theorem C6_policy_setter_requests_witness :
    ExpectationSuite.set_validation_ingestion_policy attachedSuite0 "strict" =
      (none, { attachedSuite0 with _validation_ingestion_policy := "STRICT" },
       [Request.updateMetadata 67 13]) ∧
    ExpectationSuite.set_validation_ingestion_policy suite0 "strict" =
      (none, { suite0 with _validation_ingestion_policy := "STRICT" }, []) :=
  ⟨(C6_policy_setter_requests attachedSuite0 ⟨67, 13⟩).1 rfl rfl,
   (C6_policy_setter_requests suite0 ⟨0, 0⟩).2 rfl⟩

/-- C9: assigning `None` to the `expectations` property stores the empty
list; assigning a non-list, non-`None` value raises a `TypeError` naming the
offending runtime type and leaves the suite unchanged; assigning a list
stores each element normalized to `GeExpectation`. -/
theorem C9_expectations_setter (s : ExpectationSuite) :
    (ExpectationSuite.set_expectations s .pyNone = (none, { s with _expectations := [] })) ∧
    (∀ t, ExpectationSuite.set_expectations s (.other t) =
      (some (.typeError
        ("Type " ++ t ++ " not supported. Expectations must be None or a list.")), s)) ∧
    (∀ xs es, xs.mapM ExpectationSuite._convert_expectation = .ok es →
      ExpectationSuite.set_expectations s (.list xs) = (none, { s with _expectations := es })) := by
  refine ⟨rfl, fun t => rfl, fun xs es h => ?_⟩
  have h2 : convertExpectations (.list xs) = .ok es := h
  simp [ExpectationSuite.set_expectations, h2]

/-- C10: the `meta` setter stores a dict as-is, stores the `json.loads`
result of a string, and on any other runtime type raises a `ValueError` (not
a `TypeError`) leaving the stored meta unchanged and issuing no request. -/
theorem C10_meta_setter (loads : String → Except String Json) (s : ExpectationSuite) :
    (∀ kvs, ((ExpectationSuite.set_meta loads s (.dict kvs)).2.1)._meta = .obj kvs) ∧
    (∀ str v, loads str = .ok v →
      ((ExpectationSuite.set_meta loads s (.str str)).2.1)._meta = v) ∧
    (∀ t, ExpectationSuite.set_meta loads s (.other t) =
      (some (.valueError "Meta field must be stringified json or dict."), s, [])) := by
  refine ⟨fun kvs => ?_, fun str v h => ?_, fun t => rfl⟩
  · simp [ExpectationSuite.set_meta, convertMeta]
  · simp [ExpectationSuite.set_meta, convertMeta, h]

/-- C3: `get_models` issues exactly the request built by
`get_models_request`; with both `metric` and `direction` given, a direction
case-insensitively equal to `max` yields `sort_by={metric}:desc` with
`limit=1`, `min` yields `{metric}:asc` with `limit=1`; with either argument
`None`, neither `sort_by` nor `limit` is sent. -/
theorem C3_get_models_sort_limit (resp : Except RestError Json)
    (project_id name model_registry_id : String) (shared : Option String)
    (metric direction : Option String) :
    (ModelApi.get_models resp project_id name model_registry_id shared metric direction).2 =
      [ModelApi.get_models_request project_id name model_registry_id metric direction] ∧
    (∀ m d, metric = some m → direction = some d → pyLower d = "max" →
      qGet (ModelApi.get_models_request project_id name model_registry_id
        metric direction).query_params "sort_by" = some (.s (m ++ ":" ++ "desc")) ∧
      qGet (ModelApi.get_models_request project_id name model_registry_id
        metric direction).query_params "limit" = some (.s "1")) ∧
    (∀ m d, metric = some m → direction = some d → pyLower d = "min" →
      qGet (ModelApi.get_models_request project_id name model_registry_id
        metric direction).query_params "sort_by" = some (.s (m ++ ":" ++ "asc")) ∧
      qGet (ModelApi.get_models_request project_id name model_registry_id
        metric direction).query_params "limit" = some (.s "1")) ∧
    (metric = none ∨ direction = none →
      qGet (ModelApi.get_models_request project_id name model_registry_id
        metric direction).query_params "sort_by" = none ∧
      qGet (ModelApi.get_models_request project_id name model_registry_id
        metric direction).query_params "limit" = none) := by
  refine ⟨rfl, ?_, ?_, ?_⟩
  · rintro m d rfl rfl hmax
    constructor <;> simp [ModelApi.get_models_request, qGet, hmax]
  · rintro m d rfl rfl hmin
    have hne : pyLower d ≠ "max" := by rw [hmin]; decide
    constructor <;> simp [ModelApi.get_models_request, qGet, hmin, hne]
  · rintro (rfl | rfl)
    · cases direction <;> simp [ModelApi.get_models_request, qGet]
    · cases metric <;> simp [ModelApi.get_models_request, qGet]

/-- Mapping a monadic function over a nonempty list cannot give an empty
list (for `Except`). -/
theorem mapM_ne_nil {α β ε : Type} (f : α → Except ε β) (a : α) (as : List α)
    (vs : List β) (h : (a :: as).mapM f = .ok vs) : vs ≠ [] := by
  rw [List.mapM_cons] at h
  cases hfa : f a with
  | error e => rw [hfa] at h; simp [Bind.bind, Except.bind] at h
  | ok b =>
    rw [hfa] at h
    cases hrest : as.mapM f with
    | error e =>
      rw [hrest] at h
      simp [Bind.bind, Except.bind, Pure.pure, Except.pure] at h
    | ok bs =>
      rw [hrest] at h
      simp only [Bind.bind, Except.bind, Pure.pure, Except.pure] at h
      cases h
      simp

/-- Whether the backend answered a request with a 404-class error. -/
def respNotFound (resp : Except RestError Json) : Prop :=
  ∃ e, resp = .error e ∧ e.status = 404

/-- C5: `ModelApi.get` returns `None` exactly when the backend reports
not-found, and `ModelApi.get_tags` returns the empty map exactly when the
backend reports not-found (assuming a backend success response lists at
least one tag); any other backend error propagates; on success `get_tags`
returns each tag value JSON-decoded; and neither operation lets a 404-class
backend error reach the caller. -/
theorem C5_not_found_sentinels (loads : String → Except String Json)
    (resp : Except RestError Json)
    (project_id name model_registry_id model_id : String) (version : Int)
    (shared : Option String)
    (hok : ∀ j ts, resp = .ok j → Tag.from_response_json j = some ts → ts ≠ []) :
    ((ModelApi.get resp project_id name version model_registry_id shared).1 = .ok none ↔
      respNotFound resp) ∧
    ((ModelApi.get_tags loads resp project_id model_registry_id model_id).1 = .ok [] ↔
      respNotFound resp) ∧
    (∀ e, resp = .error e → e.status ≠ 404 →
      (ModelApi.get resp project_id name version model_registry_id shared).1 =
        .error (.rest e) ∧
      (ModelApi.get_tags loads resp project_id model_registry_id model_id).1 =
        .error (.rest e)) ∧
    (∀ j ts vals, resp = .ok j → Tag.from_response_json j = some ts →
      ts.mapM (decodeTag loads) = .ok vals →
      (ModelApi.get_tags loads resp project_id model_registry_id model_id).1 = .ok vals) ∧
    (∀ e, (ModelApi.get resp project_id name version model_registry_id shared).1 =
        .error (.rest e) → e.status ≠ 404) ∧
    (∀ e, (ModelApi.get_tags loads resp project_id model_registry_id model_id).1 =
        .error (.rest e) → e.status ≠ 404) := by
  have hget_ok : ∀ j, resp = .ok j →
      (ModelApi.get resp project_id name version model_registry_id shared).1 =
        .ok (some ⟨j, shared⟩) := by
    rintro j rfl; rfl
  have hget_err : ∀ e, resp = .error e →
      (ModelApi.get resp project_id name version model_registry_id shared).1 =
        (if e.status = 404 then .ok none else .error (.rest e)) := by
    rintro e rfl
    simp only [ModelApi.get, catch_not_found, RestError.isNotFound, beq_iff_eq]
  have htags_err : ∀ e, resp = .error e →
      (ModelApi.get_tags loads resp project_id model_registry_id model_id).1 =
        (if e.status = 404 then .ok [] else .error (.rest e)) := by
    rintro e rfl
    simp only [ModelApi.get_tags, catch_not_found, RestError.isNotFound, beq_iff_eq]
  have htags_none : ∀ j, resp = .ok j → Tag.from_response_json j = none →
      (ModelApi.get_tags loads resp project_id model_registry_id model_id).1 =
        .error (.py (.typeError "NoneType object is not iterable")) := by
    rintro j rfl hts
    unfold ModelApi.get_tags
    dsimp only
    rw [hts]
    rfl
  have htags_some : ∀ j ts, resp = .ok j → Tag.from_response_json j = some ts →
      (ModelApi.get_tags loads resp project_id model_registry_id model_id).1 =
        (match ts.mapM (decodeTag loads) with
          | .ok vs => .ok vs
          | .error e => .error (.py (.valueError e))) := by
    rintro j ts rfl hts
    unfold ModelApi.get_tags
    dsimp only
    rw [hts]
    dsimp only
    cases hm : ts.mapM (decodeTag loads) with
    | ok vs => rfl
    | error e => rfl
  refine ⟨?_, ?_, ?_, ?_, ?_, ?_⟩
  · constructor
    · intro h
      cases hr : resp with
      | ok j => rw [hget_ok j hr] at h; cases h
      | error e =>
        rw [hget_err e hr] at h
        by_cases h404 : e.status = 404
        · exact ⟨e, rfl, h404⟩
        · rw [if_neg h404] at h; cases h
    · rintro ⟨e, rfl, h404⟩
      rw [hget_err e rfl, if_pos h404]
  · constructor
    · intro h
      cases hr : resp with
      | ok j =>
        cases hts : Tag.from_response_json j with
        | none => rw [htags_none j hr hts] at h; cases h
        | some ts =>
          rw [htags_some j ts hr hts] at h
          cases hm : ts.mapM (decodeTag loads) with
          | error e => rw [hm] at h; cases h
          | ok vs =>
            rw [hm] at h
            cases ts with
            | nil => exact absurd hts (by simpa using hok j [] hr)
            | cons t rest =>
              have hne := mapM_ne_nil (decodeTag loads) t rest vs hm
              cases h
              exact absurd rfl hne
      | error e =>
        rw [htags_err e hr] at h
        by_cases h404 : e.status = 404
        · exact ⟨e, rfl, h404⟩
        · rw [if_neg h404] at h; cases h
    · rintro ⟨e, rfl, h404⟩
      rw [htags_err e rfl, if_pos h404]
  · rintro e rfl h404
    exact ⟨by rw [hget_err e rfl, if_neg h404], by rw [htags_err e rfl, if_neg h404]⟩
  · rintro j ts vals rfl hts hvals
    rw [htags_some j ts rfl hts, hvals]
  · intro e h
    cases hr : resp with
    | ok j => rw [hget_ok j hr] at h; cases h
    | error e2 =>
      rw [hget_err e2 hr] at h
      by_cases h404 : e2.status = 404
      · rw [if_pos h404] at h; cases h
      · rw [if_neg h404] at h
        cases h
        exact h404
  · intro e h
    cases hr : resp with
    | ok j =>
      cases hts : Tag.from_response_json j with
      | none => rw [htags_none j hr hts] at h; cases h
      | some ts =>
        rw [htags_some j ts hr hts] at h
        cases hm : ts.mapM (decodeTag loads) with
        | ok vs => rw [hm] at h; cases h
        | error e2 => rw [hm] at h; cases h
    | error e2 =>
      rw [htags_err e2 hr] at h
      by_cases h404 : e2.status = 404
      · rw [if_pos h404] at h; cases h
      · rw [if_neg h404] at h
        cases h
        exact h404

/-- C5 witness: at a concrete 404 backend response, `get` yields `None` and
`get_tags` yields the empty map. -/
theorem C5_not_found_sentinels_witness :
    ((ModelApi.get (.error ⟨404, "not found"⟩) "p" "m" 1 "r" none).1 = .ok none ↔
      respNotFound (.error ⟨404, "not found"⟩)) ∧
    ((ModelApi.get_tags loads0 (.error ⟨404, "not found"⟩) "p" "r" "9").1 = .ok [] ↔
      respNotFound (.error ⟨404, "not found"⟩)) ∧
    (∀ e, (Except.error ⟨404, "not found"⟩ : Except RestError Json) = .error e →
      e.status ≠ 404 →
      (ModelApi.get (.error ⟨404, "not found"⟩) "p" "m" 1 "r" none).1 = .error (.rest e) ∧
      (ModelApi.get_tags loads0 (.error ⟨404, "not found"⟩) "p" "r" "9").1 =
        .error (.rest e)) ∧
    (∀ j ts vals, (Except.error ⟨404, "not found"⟩ : Except RestError Json) = .ok j →
      Tag.from_response_json j = some ts →
      ts.mapM (decodeTag loads0) = .ok vals →
      (ModelApi.get_tags loads0 (.error ⟨404, "not found"⟩) "p" "r" "9").1 = .ok vals) ∧
    (∀ e, (ModelApi.get (.error ⟨404, "not found"⟩) "p" "m" 1 "r" none).1 =
        .error (.rest e) → e.status ≠ 404) ∧
    (∀ e, (ModelApi.get_tags loads0 (.error ⟨404, "not found"⟩) "p" "r" "9").1 =
        .error (.rest e) → e.status ≠ 404) :=
  C5_not_found_sentinels loads0 (.error ⟨404, "not found"⟩) "p" "m" "r" "9" 1 none
    (fun _ _ h => nomatch h)

/-- C7: both provenance lookups issue one request with the claimed depths
(upstream 2 for the feature view, 1 for the training dataset, downstream 0),
and on a backend success return `None` exactly when the filtered upstream
link set is empty, otherwise that nonempty link collection. -/
theorem C7_provenance_empty_none (resp : Except RestError (List RawLink))
    (project_id model_registry_id model_id : String) :
    ((ModelApi.get_feature_view_provenance resp project_id model_registry_id model_id).2 =
      [provenanceRequest project_id model_registry_id model_id 2] ∧
     qGet (provenanceRequest project_id model_registry_id model_id 2).query_params
       "upstreamLvls" = some (.n 2) ∧
     qGet (provenanceRequest project_id model_registry_id model_id 2).query_params
       "downstreamLvls" = some (.n 0)) ∧
    ((ModelApi.get_training_dataset_provenance resp project_id model_registry_id model_id).2 =
      [provenanceRequest project_id model_registry_id model_id 1] ∧
     qGet (provenanceRequest project_id model_registry_id model_id 1).query_params
       "upstreamLvls" = some (.n 1) ∧
     qGet (provenanceRequest project_id model_registry_id model_id 1).query_params
       "downstreamLvls" = some (.n 0)) ∧
    (∀ raw, resp = .ok raw →
      (((ModelApi.get_feature_view_provenance resp project_id model_registry_id
          model_id).1 = .ok none) ↔
        (Links.from_response_json raw .upstream .featureView).isEmptyLinks = true) ∧
      (∀ l, (ModelApi.get_feature_view_provenance resp project_id model_registry_id
          model_id).1 = .ok (some l) →
        l = Links.from_response_json raw .upstream .featureView ∧
        l.isEmptyLinks = false) ∧
      (((ModelApi.get_training_dataset_provenance resp project_id model_registry_id
          model_id).1 = .ok none) ↔
        (Links.from_response_json raw .upstream .trainingDataset).isEmptyLinks = true) ∧
      (∀ l, (ModelApi.get_training_dataset_provenance resp project_id model_registry_id
          model_id).1 = .ok (some l) →
        l = Links.from_response_json raw .upstream .trainingDataset ∧
        l.isEmptyLinks = false)) := by
  refine ⟨?_, ?_, ?_⟩
  · cases resp <;>
      exact ⟨rfl, by simp [provenanceRequest, qGet], by simp [provenanceRequest, qGet]⟩
  · cases resp <;>
      exact ⟨rfl, by simp [provenanceRequest, qGet], by simp [provenanceRequest, qGet]⟩
  · rintro raw rfl
    refine ⟨?_, ?_, ?_, ?_⟩
    · by_cases h : (Links.from_response_json raw .upstream .featureView).isEmptyLinks <;>
        simp [ModelApi.get_feature_view_provenance, h]
    · intro l h
      by_cases he : (Links.from_response_json raw .upstream .featureView).isEmptyLinks <;>
        simp [ModelApi.get_feature_view_provenance, he] at h
      exact ⟨h.symm, by rw [← h]; simpa using he⟩
    · by_cases h : (Links.from_response_json raw .upstream .trainingDataset).isEmptyLinks <;>
        simp [ModelApi.get_training_dataset_provenance, h]
    · intro l h
      by_cases he : (Links.from_response_json raw .upstream .trainingDataset).isEmptyLinks <;>
        simp [ModelApi.get_training_dataset_provenance, he] at h
      exact ⟨h.symm, by rw [← h]; simpa using he⟩

/-- The invariant of claim C4, with "set" read as the code reads it
(`if self.id:`, so truthy): a truthy id implies both parent ids present. -/
def idImpliesParents (s : ExpectationSuite) : Prop :=
  truthyOptInt s._id = true →
    s._feature_store_id.isSome = true ∧ s._feature_group_id.isSome = true

/-- The attachment-relevant fields of two suite states agree. -/
def sameAttachment (s t : ExpectationSuite) : Prop :=
  t._id = s._id ∧ t._feature_store_id = s._feature_store_id ∧
    t._feature_group_id = s._feature_group_id

theorem sameAttachment_preserves {s t : ExpectationSuite}
    (h : sameAttachment s t) (hs : idImpliesParents s) : idImpliesParents t := by
  intro ht
  rw [h.1] at ht
  rw [h.2.1, h.2.2]
  exact hs ht

/-- C4 counterexample: the `id` setter breaks the invariant on a suite the
constructor produced unattached, and constructing with `id=0` and no parent
ids already yields a non-`None` id with both parents unset. -/
theorem C4_id_invariant_counterexample :
    (ExpectationSuite.init loads0 "transactions_suite" (.list [.hw exp0])
      (.dict [("notes", .str "checked")]) none true "always" none none none none none =
      .ok suite0) ∧
    ((suite0.set_id 5)._id = some 5 ∧
     (suite0.set_id 5)._feature_store_id = none ∧
     (suite0.set_id 5)._feature_group_id = none) ∧
    (ExpectationSuite.init loads0 "transactions_suite" (.list [.hw exp0])
      (.dict [("notes", .str "checked")]) (some 0) true "always" none none none none none =
      .ok { suite0 with _id := some 0 }) ∧
    ({ suite0 with _id := some 0 }._id ≠ none ∧
     { suite0 with _id := some 0 }._feature_store_id = none) :=
  ⟨rfl, ⟨rfl, rfl, rfl⟩, rfl, by simp, rfl⟩

/-- C4 amended: the invariant "truthy id implies both parent ids set" is
established by every successful construction and preserved by every public
mutation except the `id` setter (which assigns unconditionally and can break
it, as the counterexample shows); constructing with a falsy id never wires
the engines, so id 0 escapes the constructor's assertion. -/
theorem C4_id_invariant_amended (loads : String → Except String Json)
    (b : ExpectationBackend) (s : ExpectationSuite) :
    (∀ name exps meta id rv pol fs fg href gcid dat s0,
      ExpectationSuite.init loads name exps meta id rv pol fs fg href gcid dat = .ok s0 →
      idImpliesParents s0) ∧
    (idImpliesParents s →
      (∀ n, idImpliesParents (s.set_expectation_suite_name n).2.1) ∧
      (∀ rv, idImpliesParents (s.set_run_validation rv).2.1) ∧
      (∀ p, idImpliesParents (s.set_validation_ingestion_policy p).2.1) ∧
      (∀ v, idImpliesParents (s.set_data_asset_type v)) ∧
      (∀ v, idImpliesParents (s.set_ge_coud_id v)) ∧
      (∀ v, idImpliesParents (s.set_expectations v).2) ∧
      (∀ m, idImpliesParents (s.set_meta loads m).2.1) ∧
      (∀ i gt, idImpliesParents (s.get_expectation b i gt).2.1) ∧
      (∀ e gt, idImpliesParents (s.add_expectation b e gt).2.1) ∧
      (∀ e gt, idImpliesParents (s.replace_expectation b e gt).2.1) ∧
      (∀ i, idImpliesParents (s.remove_expectation b i).2.1)) := by
  constructor
  · intro name exps meta id rv pol fs fg href gcid dat s0 h
    simp only [ExpectationSuite.init, Bind.bind, Except.bind] at h
    repeat' split at h
    all_goals first
      | (cases h; intro ht; first | exact ⟨rfl, rfl⟩ | simp_all)
      | cases h
  · intro hs
    refine ⟨?_, ?_, ?_, ?_, ?_, ?_, ?_, ?_, ?_, ?_, ?_⟩
    · intro n
      exact sameAttachment_preserves ⟨rfl, rfl, rfl⟩ hs
    · intro rv
      exact sameAttachment_preserves ⟨rfl, rfl, rfl⟩ hs
    · intro p
      exact sameAttachment_preserves ⟨rfl, rfl, rfl⟩ hs
    · intro v
      exact sameAttachment_preserves ⟨rfl, rfl, rfl⟩ hs
    · intro v
      exact sameAttachment_preserves ⟨rfl, rfl, rfl⟩ hs
    · intro v
      refine sameAttachment_preserves ?_ hs
      unfold ExpectationSuite.set_expectations
      split <;> exact ⟨rfl, rfl, rfl⟩
    · intro m
      refine sameAttachment_preserves ?_ hs
      unfold ExpectationSuite.set_meta
      split
      · exact ⟨rfl, rfl, rfl⟩
      · exact ⟨rfl, rfl, rfl⟩
    · intro i gt
      refine sameAttachment_preserves ?_ hs
      unfold ExpectationSuite.get_expectation
      split
      · split
        · split <;> exact ⟨rfl, rfl, rfl⟩
        · exact ⟨rfl, rfl, rfl⟩
      · exact ⟨rfl, rfl, rfl⟩
    · intro e gt
      refine sameAttachment_preserves ?_ hs
      unfold ExpectationSuite.add_expectation
      split
      · split
        · exact ⟨rfl, rfl, rfl⟩
        · split
          · exact ⟨rfl, rfl, rfl⟩
          · split
            · exact ⟨rfl, rfl, rfl⟩
            · split <;> exact ⟨rfl, rfl, rfl⟩
      · exact ⟨rfl, rfl, rfl⟩
    · intro e gt
      refine sameAttachment_preserves ?_ hs
      unfold ExpectationSuite.replace_expectation
      split
      · split
        · exact ⟨rfl, rfl, rfl⟩
        · split
          · exact ⟨rfl, rfl, rfl⟩
          · split
            · split
              · exact ⟨rfl, rfl, rfl⟩
              · split <;> exact ⟨rfl, rfl, rfl⟩
            · exact ⟨rfl, rfl, rfl⟩
      · exact ⟨rfl, rfl, rfl⟩
    · intro i
      refine sameAttachment_preserves ?_ hs
      unfold ExpectationSuite.remove_expectation
      split
      · split
        · exact ⟨rfl, rfl, rfl⟩
        · split
          · exact ⟨rfl, rfl, rfl⟩
          · split <;> exact ⟨rfl, rfl, rfl⟩
      · exact ⟨rfl, rfl, rfl⟩

/-! ## Round-trip machinery for C2 -/

theorem decamelizeList_eq_map (l : List Json) :
    decamelizeList l = l.map decamelizeJson := by
  induction l with
  | nil => rfl
  | cons x xs ih => simp [decamelizeList, ih]

theorem decamelizeJson_optIntJson (x : Option Int) :
    decamelizeJson (optIntJson x) = optIntJson x := by
  cases x <;> rfl

theorem decamelizeStr_id : decamelizeStr "id" = "id" := by decide

theorem decamelizeStr_fsid :
    decamelizeStr "featureStoreId" = "feature_store_id" := by decide

theorem decamelizeStr_fgid :
    decamelizeStr "featureGroupId" = "feature_group_id" := by decide

theorem decamelizeStr_esname :
    decamelizeStr "expectationSuiteName" = "expectation_suite_name" := by decide

theorem decamelizeStr_expectations :
    decamelizeStr "expectations" = "expectations" := by decide

theorem decamelizeStr_meta : decamelizeStr "meta" = "meta" := by decide

theorem decamelizeStr_gecloudid :
    decamelizeStr "geCloudId" = "ge_cloud_id" := by decide

theorem decamelizeStr_dataassettype :
    decamelizeStr "dataAssetType" = "data_asset_type" := by decide

theorem decamelizeStr_runvalidation :
    decamelizeStr "runValidation" = "run_validation" := by decide

theorem decamelizeStr_vip :
    decamelizeStr "validationIngestionPolicy" = "validation_ingestion_policy" := by decide

theorem decamelizeStr_exptype :
    decamelizeStr "expectationType" = "expectation_type" := by decide

theorem decamelizeStr_kwargs : decamelizeStr "kwargs" = "kwargs" := by decide

/-- One expectation survives the decamelized serialization round trip when
its payload keys are already snake_case. -/
theorem exp_roundtrip (e : GeExpectation)
    (hk : decamelizeJson e.kwargs = e.kwargs) (hm : decamelizeJson e.meta = e.meta) :
    ExpectationSuite._convert_expectation (jsonToExpInput (decamelizeJson e.to_json_dict)) =
      .ok e := by
  obtain ⟨t, k, m, i⟩ := e
  simp only at hk hm
  cases i <;>
    simp [GeExpectation.to_json_dict, decamelizeJson, decamelizeObj, decamelizeStr_id,
      decamelizeStr_exptype, decamelizeStr_kwargs, decamelizeStr_meta, hk, hm,
      jsonToExpInput, ExpectationSuite._convert_expectation, GeExpectation.from_kwargs,
      pyGet, optIntJson]

/-- A whole expectation list survives the decamelized round trip when every
payload is snake-fixed. -/
theorem exps_roundtrip (l : List GeExpectation)
    (hfix : ∀ e ∈ l, decamelizeJson e.kwargs = e.kwargs ∧ decamelizeJson e.meta = e.meta) :
    (((l.map GeExpectation.to_json_dict).map decamelizeJson).map jsonToExpInput).mapM
      ExpectationSuite._convert_expectation = .ok l := by
  induction l with
  | nil => rfl
  | cons e rest ih =>
    simp only [List.map_cons, List.mapM_cons]
    rw [exp_roundtrip e (hfix e (by simp)).1 (hfix e (by simp)).2,
      ih (fun x hx => hfix x (by simp [hx]))]
    rfl

/-- The equivalence of claim C2: same name, expectation list, meta and
validation ingestion policy. -/
def ExpectationSuite.equivalent (a b : ExpectationSuite) : Prop :=
  a._expectation_suite_name = b._expectation_suite_name ∧
  a._expectations = b._expectations ∧
  a._meta = b._meta ∧
  a._validation_ingestion_policy = b._validation_ingestion_policy

/-- The reconstruction succeeded and produced an equivalent suite. -/
def equivalentOk (s : ExpectationSuite) : Except PyErr ExpectationSuite → Prop
  | .ok t => s.equivalent t
  | .error _ => False

/-- A concrete suite whose meta dictionary has a camelCase key. -/
def camelMetaSuite : ExpectationSuite := { suite0 with _meta := .obj [("myKey", .num 1)] }

/-- C2 counterexample: for the suite `camelMetaSuite` (shown reachable via
the constructor), reconstructing from the default camelCase `to_json_dict`
fails outright - the camel key `expectationSuiteName` cannot bind the
required constructor parameter `expectation_suite_name` - and reconstructing
from the `decamelize=True` variant changes the meta dictionary key `myKey`
to `my_key`, so neither variant yields an equivalent suite for every
suite. -/
theorem C2_roundtrip_counterexample :
    (ExpectationSuite.init loads0 "transactions_suite" (.list [.hw exp0])
      (.dict [("myKey", .num 1)]) none true "always" none none none none none =
      .ok camelMetaSuite) ∧
    (suiteFromJsonDict loads0 (camelMetaSuite.to_json_dict false) =
      .error (.typeError "missing required argument expectation_suite_name")) ∧
    ((match suiteFromJsonDict loads0 (camelMetaSuite.to_json_dict true) with
      | .ok t => t._meta
      | .error _ => .null) = .obj [("my_key", .num 1)]) ∧
    camelMetaSuite._meta = .obj [("myKey", .num 1)] ∧
    Json.obj [("my_key", .num 1)] ≠ Json.obj [("myKey", .num 1)] :=
  ⟨rfl, rfl, rfl, rfl, by simp⟩

/-- C2 amended: reconstruction from `to_json_dict(decamelize=True)` (snake
keys) via the constructor succeeds and yields a suite equivalent in name,
expectation list, meta and validation ingestion policy, provided the meta is
a dictionary whose rendering is unchanged by decamelization, the expectation
payloads are likewise snake-fixed, the stored policy is upper-case (as the
constructor always leaves it), and a truthy id comes with both parent ids
(the constructor's own invariant). The default camelCase variant cannot be
reconstructed through the constructor at all (see the counterexample). -/
theorem C2_roundtrip_amended (loads : String → Except String Json)
    (s : ExpectationSuite) (mkvs : List (String × Json))
    (hmeta : s._meta = .obj mkvs)
    (hmfix : decamelizeJson s._meta = s._meta)
    (hefix : ∀ e ∈ s._expectations,
      decamelizeJson e.kwargs = e.kwargs ∧ decamelizeJson e.meta = e.meta)
    (hpol : pyUpper s._validation_ingestion_policy = s._validation_ingestion_policy)
    (hid : truthyOptInt s._id = true →
      s._feature_store_id.isSome = true ∧ s._feature_group_id.isSome = true) :
    equivalentOk s (suiteFromJsonDict loads (s.to_json_dict true)) := by
  obtain ⟨id, name, gcid, dat, rv, pol, exps, meta, href, fs, fg, ee, ese⟩ := s
  dsimp only at hmeta hmfix hefix hpol hid
  subst hmeta
  have hmfix2 : decamelizeObj mkvs = mkvs := by
    have h2 : Json.obj (decamelizeObj mkvs) = Json.obj mkvs := hmfix
    injection h2
  have hexps := exps_roundtrip exps hefix
  simp only [ExpectationSuite.to_json_dict, decamelizeJson, decamelizeObj,
    decamelizeList_eq_map, decamelizeJson_optIntJson, decamelizeStr_id,
    decamelizeStr_fsid, decamelizeStr_fgid, decamelizeStr_esname,
    decamelizeStr_expectations, decamelizeStr_meta, decamelizeStr_gecloudid,
    decamelizeStr_dataassettype, decamelizeStr_runvalidation, decamelizeStr_vip,
    hmfix2, if_true]
  rcases id with _ | n
  · rcases fs with _ | a <;> rcases fg with _ | b <;>
      simp only [suiteFromJsonDict, ExpectationSuite.mk_from_kwargs,
        ExpectationSuite.init, Bind.bind, Except.bind, pyGet, String.reduceEq,
        reduceIte, jsonToExpectationsInput, jsonToMetaInput, optIntArg, optIntJson,
        convertExpectations, convertMeta, truthyOptInt, hexps, equivalentOk,
        ExpectationSuite.equivalent, hpol, Bool.false_eq_true, if_false, and_self,
        and_true, true_and]
  · by_cases hn : n = 0
    · subst hn
      rcases fs with _ | a <;> rcases fg with _ | b <;>
        simp only [suiteFromJsonDict, ExpectationSuite.mk_from_kwargs,
          ExpectationSuite.init, Bind.bind, Except.bind, pyGet, String.reduceEq,
          reduceIte, jsonToExpectationsInput, jsonToMetaInput, optIntArg, optIntJson,
          convertExpectations, convertMeta, truthyOptInt, hexps, equivalentOk,
          ExpectationSuite.equivalent, hpol, Bool.false_eq_true, if_false, and_self,
          and_true, true_and, decide_eq_true_eq, ne_eq, not_true_eq_false]
    · obtain ⟨ha, hb⟩ := hid (by simp [truthyOptInt, hn])
      rcases fs with _ | a
      · simp at ha
      rcases fg with _ | b
      · simp at hb
      have htr : truthyOptInt (some n) = true := by simp [truthyOptInt, hn]
      simp only [suiteFromJsonDict, ExpectationSuite.mk_from_kwargs,
        ExpectationSuite.init, Bind.bind, Except.bind, pyGet, String.reduceEq,
        reduceIte, jsonToExpectationsInput, jsonToMetaInput, optIntArg, optIntJson,
        convertExpectations, convertMeta, htr, hexps, equivalentOk,
        ExpectationSuite.equivalent, hpol, if_true]
      simp [hpol]

/-- C2 amended witness: the round trip at the concrete suite `suite0`, whose
meta and expectation payload keys are snake_case. -/
theorem C2_roundtrip_amended_witness :
    equivalentOk suite0 (suiteFromJsonDict loads0 (suite0.to_json_dict true)) :=
  C2_roundtrip_amended loads0 suite0 [("notes", .str "checked")] rfl rfl
    (by intro e he; simp [suite0] at he; subst he; exact ⟨rfl, rfl⟩)
    rfl (fun h => nomatch h)

end Hopsworks
